import Mathlib

/-!
Shallow embedding of `source/FreeRTOS_IPv4.c` (FreeRTOS+TCP IPv4 ingress
admission filter) and proofs about its three functions:

* `xIsIPv4Multicast`        (lines 54-69)
* `prvAllowIPPacketIPv4`    (lines 81-283)
* `prvCheckIP4HeaderOptions`(lines 293-332)

The frame buffer is a `List Nat` of bytes; every read goes through `getByte`
which truncates to a byte, exactly as a `uint8_t` load does.  Multi-byte
fields are loaded little-endian (the standard FreeRTOS+TCP target), and the
`FreeRTOS_ntohl` / `FreeRTOS_ntohs` byte-order collaborators (external to
this file, declared in the spec's "byte order conversions" interface) are
byte swaps, so a network-order field read through `ntohl`/`ntohs` yields the
big-endian wire value, independently of this convention.

External collaborators (endpoint lookups, checksum computation, size-field
validation, link state) are oracle fields of an `Env` record; compile-time
`ipconfig...` switches are booleans of a `Config` record.  The C functions
take `const` pointers to the packet and the network-buffer descriptor; the
embedding threads that state explicitly, so `prvAllowIPPacketIPv4` returns
the descriptor it was given (it contains no store through those pointers)
together with the updated state of its `static` log counter, and
`prvCheckIP4HeaderOptions` returns the possibly rewritten descriptor.
-/

namespace FreeRTOSIPv4

/-! ## Byte buffer primitives -/

/-- Read one byte of the frame buffer (a `uint8_t` load): out-of-range
reads yield 0, and the value is truncated to a byte. -/
def getByte (buf : List Nat) (i : Nat) : Nat :=
  buf.getD i 0 % 256

/-- Store one byte (a `uint8_t` store truncates the value). -/
def setByte (buf : List Nat) (i v : Nat) : List Nat :=
  buf.set i (v % 256)

/-- Little-endian 16-bit load, as the C compiler emits for a `uint16_t`
field of a packed struct on the standard little-endian target. -/
def loadU16 (buf : List Nat) (i : Nat) : Nat :=
  getByte buf i + 256 * getByte buf (i + 1)

/-- Little-endian 32-bit load. -/
def loadU32 (buf : List Nat) (i : Nat) : Nat :=
  getByte buf i + 256 * getByte buf (i + 1) +
    65536 * getByte buf (i + 2) + 16777216 * getByte buf (i + 3)

/-- Little-endian 16-bit store. -/
def storeU16 (buf : List Nat) (i v : Nat) : List Nat :=
  setByte (setByte buf i (v % 256)) (i + 1) (v / 256 % 256)

/-- Overwrite `src.length` bytes of `buf` starting at `dst`. -/
def listWrite (buf : List Nat) (dst : Nat) (src : List Nat) : List Nat :=
  buf.take dst ++ src ++ buf.drop (dst + src.length)

/-- `memmove( &buf[dst], &buf[src], len )`: the source bytes are captured
before anything is written, which is exactly the overlap-safe contract of
`memmove`. -/
def memmoveBytes (buf : List Nat) (dst src len : Nat) : List Nat :=
  listWrite buf dst ((buf.drop src).take len)

/-! ## Byte-order collaborators and `ipconfig` constants

`FreeRTOS_ntohs`, `FreeRTOS_htons` and `FreeRTOS_ntohl` are the byte-order
conversion collaborators; on the standard little-endian target they are
byte swaps (with the C argument conversion to `uint16_t`/`uint32_t`
built in).  The `ip...` constants below are the values of the FreeRTOS+TCP
header macros used by `FreeRTOS_IPv4.c`; the headers are not part of the
excerpt, so the values are taken from the spec's description of the frame
layout and policy ranges. -/

/-- 16-bit byte swap (network/host conversion, little-endian host). -/
def FreeRTOS_ntohs (x : Nat) : Nat :=
  x % 256 * 256 + x / 256 % 256

/-- `htons` is the same byte swap. -/
def FreeRTOS_htons (x : Nat) : Nat :=
  FreeRTOS_ntohs x

/-- 32-bit byte swap (network/host conversion, little-endian host). -/
def FreeRTOS_ntohl (x : Nat) : Nat :=
  x % 256 * 16777216 + x / 256 % 256 * 65536 +
    x / 65536 % 256 * 256 + x / 16777216 % 256

def ipSIZE_OF_ETH_HEADER : Nat := 14
def ipSIZE_OF_IPv4_HEADER : Nat := 20
def ipSIZE_OF_IPv6_HEADER : Nat := 40

/-- 224.0.0.0 in host byte order. -/
def ipFIRST_MULTI_CAST_IPv4 : Nat := 0xE0000000

/-- 240.0.0.0 in host byte order. -/
def ipLAST_MULTI_CAST_IPv4 : Nat := 0xF0000000

/-- Mask of the fragment-offset bits in the `usFragmentOffset` field as it
sits in memory (network byte order loaded little-endian). -/
def ipFRAGMENT_OFFSET_BIT_MASK : Nat := 0xFF1F

/-- The "more fragments" flag in the same in-memory representation. -/
def ipFRAGMENT_FLAGS_MORE_FRAGMENTS : Nat := 0x0020

/-- Version/IHL byte for an IPv4 header of minimal (20-byte) length. -/
def ipIPV4_VERSION_HEADER_LENGTH_MIN : Nat := 0x45

/-- Version/IHL byte for an IPv4 header of maximal (60-byte) length. -/
def ipIPV4_VERSION_HEADER_LENGTH_MAX : Nat := 0x4F

/-- Sentinel returned by the checksum collaborator when the checked data
contained a correct checksum field. -/
def ipCORRECT_CRC : Nat := 0xFFFF

/-- IPv6 Ethernet frame-type constant as compared against the in-memory
(little-endian loaded) `usFrameType` field: wire bytes `86 DD`. -/
def ipIPv6_FRAME_TYPE : Nat := 0xDD86

def ipPROTOCOL_UDP : Nat := 17

/-- The width of `size_t` on the 32-bit targets this stack is built for;
C unsigned arithmetic on `size_t` is taken modulo this. -/
def SIZE_T_MOD : Nat := 4294967296

/-- C `size_t` subtraction `a - b` (wraps on underflow). -/
def usub (a b : Nat) : Nat :=
  (a % SIZE_T_MOD + (SIZE_T_MOD - b % SIZE_T_MOD)) % SIZE_T_MOD

/-! ## Header field views

The C code reads the frame through packed struct overlays
(`IPPacket_t` = 14-byte Ethernet header + IPv4 header).  The accessors
below are those field reads, at the fixed offsets of that layout. -/

/-- `pxIPPacket->xIPHeader.ucVersionHeaderLength` (offset 14). -/
def ucVersionHeaderLength (buf : List Nat) : Nat := getByte buf 14

/-- `pxIPPacket->xIPHeader.usLength` as it sits in memory (offset 16). -/
def usLengthField (buf : List Nat) : Nat := loadU16 buf 16

/-- `pxIPPacket->xIPHeader.usFragmentOffset` as it sits in memory
(offset 20). -/
def usFragmentOffset (buf : List Nat) : Nat := loadU16 buf 20

/-- `pxIPPacket->xIPHeader.ucProtocol` (offset 23). -/
def ucProtocol (buf : List Nat) : Nat := getByte buf 23

/-- `pxIPPacket->xIPHeader.ulSourceIPAddress` as it sits in memory
(offset 26). -/
def ulSourceIPAddress (buf : List Nat) : Nat := loadU32 buf 26

/-- `pxIPPacket->xIPHeader.ulDestinationIPAddress` as it sits in memory
(offset 30). -/
def ulDestinationIPAddress (buf : List Nat) : Nat := loadU32 buf 30

/-- `pxIPPacket->xEthernetHeader.usFrameType` (offset 12). -/
def usFrameType (buf : List Nat) : Nat := loadU16 buf 12

/-- Six MAC bytes starting at offset `i` (destination MAC at 0, source
MAC at 6). -/
def macBytes (buf : List Nat) (i : Nat) : List Nat :=
  [getByte buf i, getByte buf (i + 1), getByte buf (i + 2),
   getByte buf (i + 3), getByte buf (i + 4), getByte buf (i + 5)]

/-- The link-layer broadcast MAC `ff:ff:ff:ff:ff:ff`. -/
def xBroadcastMACAddress : List Nat := [255, 255, 255, 255, 255, 255]

/-! ## State, environment and configuration records -/

/-- `NetworkBufferDescriptor_t`, restricted to the fields this file
reads: the frame bytes, the logical data length, and the endpoint the
driver may have attached to the buffer. -/
structure NetworkBufferDescriptor where
  pucEthernetBuffer : List Nat
  xDataLength : Nat
  pxEndPoint : Option Nat
deriving DecidableEq, Repr

/-- The external collaborators called by `prvAllowIPPacketIPv4`, as
oracles.  `FreeRTOS_FindEndPointOnIP_IPv4` and
`FreeRTOS_FindEndPointOnMAC` return `none` for a NULL result. -/
structure Env where
  FreeRTOS_FindEndPointOnIP_IPv4 : Nat → Nat → Option Nat
  FreeRTOS_FindEndPointOnMAC : List Nat → Option Nat
  FreeRTOS_IsNetworkUp : Bool
  usGenerateChecksum : Nat → List Nat → Nat
  usGenerateProtocolChecksum : List Nat → Nat → Bool → Nat
  xCheckSizeFields : List Nat → Nat → Bool

/-- Compile-time `ipconfig` switches of `prvAllowIPPacketIPv4`; `true`
means the macro is nonzero. -/
structure Config where
  ethernetDriverFiltersPackets : Bool
  driverIncludedRxChecksum : Bool
  udpPassZeroChecksumPackets : Bool
  hasPrintf : Bool
deriving DecidableEq, Repr

/-- `eFrameProcessingResult_t`, restricted to the two values this file
produces. -/
inductive eFrameProcessingResult where
  | eProcessBuffer
  | eReleaseBuffer
deriving DecidableEq, Repr

export eFrameProcessingResult (eProcessBuffer eReleaseBuffer)

/-! ## `xIsIPv4Multicast` (lines 54-69) -/

/-- `xIsIPv4Multicast`: convert to host order and test membership in the
multicast block. -/
def xIsIPv4Multicast (ulIPAddress : Nat) : Bool :=
  let ulIP := FreeRTOS_ntohl ulIPAddress
  if ipFIRST_MULTI_CAST_IPv4 ≤ ulIP ∧ ulIP < ipLAST_MULTI_CAST_IPv4 then
    true
  else
    false

/-! ## `prvAllowIPPacketIPv4` (lines 81-283)

The function is one `#if`-structured body; each preprocessor block is
embedded as one definition and the top-level function glues them along
the `Config` switches, exactly following the block structure of the
source. -/

/-- The destination-reachability guard of the software filter (the
condition of lines 122-129): the buffer has no endpoint attached, no
endpoint owns the destination address, the destination is not an
`x.x.x.255` broadcast, it is not multicast, and the network is up. -/
def destinationUnreachable (env : Env) (ds : NetworkBufferDescriptor) : Prop :=
  ds.pxEndPoint = none ∧
  env.FreeRTOS_FindEndPointOnIP_IPv4
    (ulDestinationIPAddress ds.pucEthernetBuffer) 4 = none ∧
  FreeRTOS_ntohl (ulDestinationIPAddress ds.pucEthernetBuffer) &&& 0xff ≠ 0xff ∧
  xIsIPv4Multicast (ulDestinationIPAddress ds.pucEthernetBuffer) = false ∧
  env.FreeRTOS_IsNetworkUp = true

instance (env : Env) (ds : NetworkBufferDescriptor) :
    Decidable (destinationUnreachable env ds) := by
  unfold destinationUnreachable; exact inferInstance

/-- The `ipconfigETHERNET_DRIVER_FILTERS_PACKETS == 0` block
(lines 96-168): the seven software packet-filter checks, in source
order, short-circuiting to `eReleaseBuffer`. -/
def familyAVerdict (env : Env) (ds : NetworkBufferDescriptor) :
    eFrameProcessingResult :=
  let buf := ds.pucEthernetBuffer
  if usFragmentOffset buf &&& ipFRAGMENT_OFFSET_BIT_MASK ≠ 0 ∨
     usFragmentOffset buf &&& ipFRAGMENT_FLAGS_MORE_FRAGMENTS ≠ 0 then
    eReleaseBuffer
  else if ucVersionHeaderLength buf < ipIPV4_VERSION_HEADER_LENGTH_MIN ∨
          ucVersionHeaderLength buf > ipIPV4_VERSION_HEADER_LENGTH_MAX then
    eReleaseBuffer
  else if destinationUnreachable env ds then
    eReleaseBuffer
  else if FreeRTOS_ntohl (ulSourceIPAddress buf) &&& 0xff = 0xff then
    eReleaseBuffer
  else if macBytes buf 0 = xBroadcastMACAddress ∧
          FreeRTOS_ntohl (ulDestinationIPAddress buf) &&& 0xff ≠ 0xff then
    eReleaseBuffer
  else if macBytes buf 6 = xBroadcastMACAddress then
    eReleaseBuffer
  else if xIsIPv4Multicast (ulSourceIPAddress buf) = true then
    eReleaseBuffer
  else
    eProcessBuffer

/-- The family-A stage of `prvAllowIPPacketIPv4`: the block is compiled
out when `ipconfigETHERNET_DRIVER_FILTERS_PACKETS` is nonzero, leaving
`eReturn` at its initial `eProcessBuffer`. -/
def famAStage (cfg : Config) (env : Env) (ds : NetworkBufferDescriptor) :
    eFrameProcessingResult :=
  if cfg.ethernetDriverFiltersPackets then eProcessBuffer
  else familyAVerdict env ds

/-- The `ipconfigDRIVER_INCLUDED_RX_IP_CHECKSUM == 0` block
(lines 170-206): software verification of the IP-header checksum and the
upper-layer protocol checksum, skipped entirely when the source MAC
resolves to a local endpoint (loop-back). -/
def swChecksumStage (env : Env) (ds : NetworkBufferDescriptor)
    (uxHeaderLength : Nat) (eIn : eFrameProcessingResult) :
    eFrameProcessingResult :=
  if eIn = eProcessBuffer then
    match env.FreeRTOS_FindEndPointOnMAC (macBytes ds.pucEthernetBuffer 6) with
    | some _ => eIn
    | none =>
      if env.usGenerateChecksum 0
          ((ds.pucEthernetBuffer.drop 14).take uxHeaderLength) ≠ ipCORRECT_CRC then
        eReleaseBuffer
      else if env.usGenerateProtocolChecksum ds.pucEthernetBuffer
          ds.xDataLength false ≠ ipCORRECT_CRC then
        eReleaseBuffer
      else eIn
  else eIn

/-- The size-field check of the `#else` block (lines 209-216). -/
def sizeCheckStage (env : Env) (ds : NetworkBufferDescriptor)
    (eIn : eFrameProcessingResult) : eFrameProcessingResult :=
  if eIn = eProcessBuffer ∧
     env.xCheckSizeFields ds.pucEthernetBuffer ds.xDataLength = false then
    eReleaseBuffer
  else eIn

/-- The `ipconfigUDP_PASS_ZERO_CHECKSUM_PACKETS == 0` block
(lines 218-274): locate the transport header by the frame type, and drop
UDP segments whose checksum field is zero; the rate-limited diagnostic
is modelled by threading the `static` counter `xCount` and reporting the
number of log lines emitted.  Returns
(verdict, new `xCount`, lines emitted). -/
def zeroChecksumStage (cfg : Config)
    (ds : NetworkBufferDescriptor) (eIn : eFrameProcessingResult)
    (xCount : Nat) : eFrameProcessingResult × Nat × Nat :=
  if cfg.udpPassZeroChecksumPackets then (eIn, xCount, 0)
  else if eIn = eProcessBuffer then
    let buf := ds.pucEthernetBuffer
    let pair :=
      if usFrameType buf = ipIPv6_FRAME_TYPE then
        (getByte buf (ipSIZE_OF_ETH_HEADER + 6),
         ipSIZE_OF_ETH_HEADER + ipSIZE_OF_IPv6_HEADER)
      else
        (ucProtocol buf, ipSIZE_OF_ETH_HEADER + ipSIZE_OF_IPv4_HEADER)
    if pair.1 = ipPROTOCOL_UDP then
      if loadU16 buf (pair.2 + 6) = 0 then
        if cfg.hasPrintf ∧ xCount < 5 then (eReleaseBuffer, xCount + 1, 1)
        else (eReleaseBuffer, xCount, 0)
      else (eIn, xCount, 0)
    else (eIn, xCount, 0)
  else (eIn, xCount, 0)

/-- `prvAllowIPPacketIPv4`.  The C function takes `const` pointers to the
packet overlay and the descriptor; the embedding returns the descriptor
as the caller sees it after the call, together with the verdict, the new
value of the `static` log counter, and the number of diagnostic lines
emitted during this call. -/
def prvAllowIPPacketIPv4 (cfg : Config) (env : Env)
    (ds : NetworkBufferDescriptor) (uxHeaderLength : Nat) (xCount : Nat) :
    eFrameProcessingResult × NetworkBufferDescriptor × Nat × Nat :=
  let e0 := famAStage cfg env ds
  if cfg.driverIncludedRxChecksum = false then
    (swChecksumStage env ds uxHeaderLength e0, ds, xCount, 0)
  else
    let e1 := sizeCheckStage env ds e0
    let r := zeroChecksumStage cfg ds e1 xCount
    (r.1, ds, r.2.1, r.2.2)

/-! ## `prvCheckIP4HeaderOptions` (lines 293-332)

The excerpt uses `uxHeaderLength` and `pxIPHeader` from an enclosing
scope; as in the spec's §9 note, they are the standard views: the header
length decoded from the version/IHL byte of this buffer, and the IP
header overlay at the Ethernet-header offset. -/

/-- `prvCheckIP4HeaderOptions`: either strip the IP options in place
(when `ipconfigIP_PASS_PACKETS_WITH_IP_OPTIONS` is nonzero) or drop the
packet.  Returns the verdict and the descriptor as left by the call. -/
def prvCheckIP4HeaderOptions
    (ipconfigIP_PASS_PACKETS_WITH_IP_OPTIONS : Bool)
    (ds : NetworkBufferDescriptor) :
    eFrameProcessingResult × NetworkBufferDescriptor :=
  if ipconfigIP_PASS_PACKETS_WITH_IP_OPTIONS then
    let buf := ds.pucEthernetBuffer
    let uxHeaderLength := (ucVersionHeaderLength buf &&& 0x0F) * 4
    let optlen := usub uxHeaderLength ipSIZE_OF_IPv4_HEADER
    let xMoveLen :=
      usub ds.xDataLength (optlen + ipSIZE_OF_IPv4_HEADER + ipSIZE_OF_ETH_HEADER)
    let buf1 := memmoveBytes buf (ipSIZE_OF_ETH_HEADER + ipSIZE_OF_IPv4_HEADER)
      (ipSIZE_OF_ETH_HEADER + uxHeaderLength) xMoveLen
    let buf2 := storeU16 buf1 16
      (FreeRTOS_htons (usub (FreeRTOS_ntohs (usLengthField buf1)) optlen))
    let buf3 := setByte buf2 14
      ((ucVersionHeaderLength buf2 &&& 0xF0) ||| ((ipSIZE_OF_IPv4_HEADER >>> 2) &&& 0x0F))
    (eProcessBuffer,
     { ds with pucEthernetBuffer := buf3,
               xDataLength := usub ds.xDataLength optlen })
  else
    (eReleaseBuffer, ds)

/-! ## Helper lemmas -/

theorem getByte_lt (buf : List Nat) (i : Nat) : getByte buf i < 256 :=
  Nat.mod_lt _ (by decide)

theorem and_255_eq_mod (n : Nat) : n &&& 255 = n % 256 := by
  simpa using Nat.and_pow_two_sub_one_eq_mod n 8

theorem eResult_cases (e : eFrameProcessingResult) :
    e = eProcessBuffer ∨ e = eReleaseBuffer := by
  cases e
  · exact Or.inl rfl
  · exact Or.inr rfl

theorem swChecksumStage_release (env : Env) (ds : NetworkBufferDescriptor)
    (hl : Nat) : swChecksumStage env ds hl eReleaseBuffer = eReleaseBuffer := by
  simp [swChecksumStage]

theorem sizeCheckStage_release (env : Env) (ds : NetworkBufferDescriptor) :
    sizeCheckStage env ds eReleaseBuffer = eReleaseBuffer := by
  simp [sizeCheckStage]

theorem zeroChecksumStage_release (cfg : Config) (ds : NetworkBufferDescriptor)
    (xc : Nat) : (zeroChecksumStage cfg ds eReleaseBuffer xc).1 = eReleaseBuffer := by
  unfold zeroChecksumStage
  split
  · rfl
  · simp

/-- Bitwise and splits over the two bytes of a 16-bit value. -/
theorem land_byte_split (x y a b : Nat) (hx : x < 256) (ha : a < 256) :
    (x + 256 * y) &&& (a + 256 * b) = (x &&& a) + 256 * (y &&& b) := by
  have h256 : (256 : Nat) = 2 ^ 8 := by norm_num
  have ha' : a < 2 ^ 8 := h256 ▸ ha
  have hx' : x < 2 ^ 8 := h256 ▸ hx
  have hxa : x &&& a < 2 ^ 8 := Nat.and_lt_two_pow x ha'
  apply Nat.eq_of_testBit_eq
  intro i
  have h1 : x + 256 * y = 2 ^ 8 * y + x := by ring
  have h2 : a + 256 * b = 2 ^ 8 * b + a := by ring
  have h3 : (x &&& a) + 256 * (y &&& b) = 2 ^ 8 * (y &&& b) + (x &&& a) := by ring
  rw [h1, h2, h3, Nat.testBit_and,
    Nat.testBit_mul_pow_two_add y hx' i,
    Nat.testBit_mul_pow_two_add b ha' i,
    Nat.testBit_mul_pow_two_add (y &&& b) hxa i]
  by_cases h : i < 8
  · simp [h, Nat.testBit_and]
  · simp [h, Nat.testBit_and]

set_option maxRecDepth 4096 in
theorem byte_and_32 : ∀ x < 256, x &&& 32 = x / 32 % 2 * 32 := by decide

/-- Masking the in-memory fragment field with `ipFRAGMENT_OFFSET_BIT_MASK`
retains exactly the wire-format fragment offset (low 5 bits of the first
wire byte, re-scaled, plus the second wire byte). -/
theorem frag_offset_mask_eq (buf : List Nat) :
    usFragmentOffset buf &&& ipFRAGMENT_OFFSET_BIT_MASK =
      getByte buf 20 % 32 + 256 * getByte buf 21 := by
  have h := land_byte_split (getByte buf 20) (getByte buf 21) 0x1F 0xFF
    (getByte_lt buf 20) (by norm_num)
  have h31 : getByte buf 20 &&& 0x1F = getByte buf 20 % 32 := by
    simpa using Nat.and_pow_two_sub_one_eq_mod (getByte buf 20) 5
  have h255 : getByte buf 21 &&& 0xFF = getByte buf 21 % 256 := by
    simpa using Nat.and_pow_two_sub_one_eq_mod (getByte buf 21) 8
  have hlt := getByte_lt buf 21
  unfold usFragmentOffset ipFRAGMENT_OFFSET_BIT_MASK loadU16
  have : (0xFF1F : Nat) = 0x1F + 256 * 0xFF := by norm_num
  rw [this, h, h31, h255, Nat.mod_eq_of_lt hlt]

/-- Masking the in-memory fragment field with
`ipFRAGMENT_FLAGS_MORE_FRAGMENTS` retains exactly the wire-format
"more fragments" bit (bit 5 of the first wire byte). -/
theorem frag_mf_mask_eq (buf : List Nat) :
    usFragmentOffset buf &&& ipFRAGMENT_FLAGS_MORE_FRAGMENTS =
      getByte buf 20 / 32 % 2 * 32 := by
  have h := land_byte_split (getByte buf 20) (getByte buf 21) 0x20 0
    (getByte_lt buf 20) (by norm_num)
  unfold usFragmentOffset ipFRAGMENT_FLAGS_MORE_FRAGMENTS loadU16
  have h32 := byte_and_32 (getByte buf 20) (getByte_lt buf 20)
  have : (0x20 : Nat) = 0x20 + 256 * 0 := by norm_num
  rw [this, h, h32]
  simp

set_option maxRecDepth 4096 in
/-- The version/header-length admission window `[0x45, 0x4F]` is exactly
"version nibble 4 and header byte length in `[20, 60]`". -/
theorem version_header_length_window : ∀ b < 256,
    ((b < 0x45 ∨ 0x4F < b) ↔
      ¬(b / 16 = 4 ∧ 20 ≤ b % 16 * 4 ∧ b % 16 * 4 ≤ 60)) := by decide

set_option maxRecDepth 4096 in
/-- The version/IHL rewrite of the option stripper keeps the version
nibble and sets the length nibble to 5 (a 20-byte header). -/
theorem vhl_rewrite_eq : ∀ b < 256,
    (b &&& 0xF0) ||| ((20 >>> 2) &&& 0x0F) = b / 16 * 16 + 5 := by decide

/-- Once the family-A block has produced `eReleaseBuffer`, every later
stage of `prvAllowIPPacketIPv4` keeps it. -/
theorem prvAllowIPPacketIPv4_of_famA_release (cfg : Config) (env : Env)
    (ds : NetworkBufferDescriptor) (hl xc : Nat)
    (h : famAStage cfg env ds = eReleaseBuffer) :
    (prvAllowIPPacketIPv4 cfg env ds hl xc).1 = eReleaseBuffer := by
  unfold prvAllowIPPacketIPv4
  rw [h]
  split
  · simpa using swChecksumStage_release env ds hl
  · simpa [sizeCheckStage_release] using
      zeroChecksumStage_release cfg ds xc

/-! ## Concrete data for witnesses -/

/-- A benign witness environment: no endpoint matches, network up, all
checksum recomputations report the correct-checksum sentinel, size
fields consistent. -/
def envW : Env :=
  { FreeRTOS_FindEndPointOnIP_IPv4 := fun _ _ => none
    FreeRTOS_FindEndPointOnMAC := fun _ => none
    FreeRTOS_IsNetworkUp := true
    usGenerateChecksum := fun _ _ => ipCORRECT_CRC
    usGenerateProtocolChecksum := fun _ _ _ => ipCORRECT_CRC
    xCheckSizeFields := fun _ _ => true }

/-- A well-formed unicast IPv4/UDP frame: 20-byte header, UDP checksum
`0x1234`, 4 payload bytes, 46 bytes in total. -/
def frameOK : List Nat :=
  [0x11, 0x22, 0x33, 0x44, 0x55, 0x66,
   0xAA, 0xBB, 0xCC, 0xDD, 0xEE, 0x01,
   0x08, 0x00,
   0x45, 0x00, 0x00, 0x20, 0x00, 0x00, 0x00, 0x00, 0x40, 0x11, 0x00, 0x00,
   0xC0, 0xA8, 0x01, 0x0A,
   0xC0, 0xA8, 0x01, 0x05,
   0x00, 0x35, 0x00, 0x35, 0x00, 0x0C, 0x12, 0x34,
   0xDE, 0xAD, 0xBE, 0xEF]

def dsOK : NetworkBufferDescriptor :=
  { pucEthernetBuffer := frameOK, xDataLength := 46, pxEndPoint := none }

/-- `frameOK` with a nonzero fragment offset (wire offset 1). -/
def frameFrag : List Nat :=
  [0x11, 0x22, 0x33, 0x44, 0x55, 0x66,
   0xAA, 0xBB, 0xCC, 0xDD, 0xEE, 0x01,
   0x08, 0x00,
   0x45, 0x00, 0x00, 0x20, 0x00, 0x00, 0x00, 0x01, 0x40, 0x11, 0x00, 0x00,
   0xC0, 0xA8, 0x01, 0x0A,
   0xC0, 0xA8, 0x01, 0x05,
   0x00, 0x35, 0x00, 0x35, 0x00, 0x0C, 0x12, 0x34,
   0xDE, 0xAD, 0xBE, 0xEF]

def dsFrag : NetworkBufferDescriptor :=
  { pucEthernetBuffer := frameFrag, xDataLength := 46, pxEndPoint := none }

/-- A configuration with both check families active (no driver
filtering, software checksums), strict zero-checksum policy, no printf. -/
def cfgSoft : Config :=
  { ethernetDriverFiltersPackets := false
    driverIncludedRxChecksum := false
    udpPassZeroChecksumPackets := false
    hasPrintf := false }

/-! ## Claims -/

/-- C6: `xIsIPv4Multicast` returns true iff the host-byte-order value of
its network-order argument lies in the half-open block
`[224.0.0.0, 240.0.0.0)`; boundary inputs (given here in network order,
wire bytes loaded little-endian): 223.255.255.255 is not multicast,
224.0.0.0 and 239.255.255.255 are, 240.0.0.0 is not.  The function is a
total Lean function without side effects by construction. -/
theorem c6_multicast_range :
    (∀ a : Nat, xIsIPv4Multicast a = true ↔
      ipFIRST_MULTI_CAST_IPv4 ≤ FreeRTOS_ntohl a ∧
        FreeRTOS_ntohl a < ipLAST_MULTI_CAST_IPv4) ∧
    xIsIPv4Multicast 0xFFFFFFDF = false ∧
    xIsIPv4Multicast 0x000000E0 = true ∧
    xIsIPv4Multicast 0xFFFFFFEF = true ∧
    xIsIPv4Multicast 0x000000F0 = false := by
  refine ⟨fun a => ?_, by decide, by decide, by decide, by decide⟩
  simp only [xIsIPv4Multicast]
  split
  · simp_all
  · simp_all

/-- C7: with the software packet filter active, any frame whose
wire-format fragment offset is nonzero or whose "more fragments" flag is
set is dropped by `prvAllowIPPacketIPv4`, whatever every other field,
oracle and configuration switch says; the fragmentation test is the
first check of the family, so no later check can override it. -/
theorem c7_fragment_discard (cfg : Config) (env : Env)
    (ds : NetworkBufferDescriptor) (hl xc : Nat)
    (hA : cfg.ethernetDriverFiltersPackets = false)
    (hfrag : getByte ds.pucEthernetBuffer 20 % 32 * 256 +
        getByte ds.pucEthernetBuffer 21 ≠ 0 ∨
      getByte ds.pucEthernetBuffer 20 / 32 % 2 = 1) :
    (prvAllowIPPacketIPv4 cfg env ds hl xc).1 = eReleaseBuffer := by
  have hcond : usFragmentOffset ds.pucEthernetBuffer &&&
        ipFRAGMENT_OFFSET_BIT_MASK ≠ 0 ∨
      usFragmentOffset ds.pucEthernetBuffer &&&
        ipFRAGMENT_FLAGS_MORE_FRAGMENTS ≠ 0 := by
    rcases hfrag with h | h
    · left; rw [frag_offset_mask_eq]; omega
    · right; rw [frag_mf_mask_eq]; omega
  have hfam : familyAVerdict env ds = eReleaseBuffer := by
    unfold familyAVerdict
    rw [if_pos hcond]
  exact prvAllowIPPacketIPv4_of_famA_release cfg env ds hl xc
    (by simp [famAStage, hA, hfam])

/-- Witness for C7 at a concrete fragmented frame. -/
theorem c7_fragment_discard_witness :
    (getByte dsFrag.pucEthernetBuffer 20 % 32 * 256 +
        getByte dsFrag.pucEthernetBuffer 21 ≠ 0 ∨
      getByte dsFrag.pucEthernetBuffer 20 / 32 % 2 = 1) ∧
    (prvAllowIPPacketIPv4 cfgSoft envW dsFrag 20 0).1 = eReleaseBuffer := by
  refine ⟨Or.inl (by decide), ?_⟩
  exact c7_fragment_discard cfgSoft envW dsFrag 20 0 rfl (Or.inl (by decide))

/-- A witness environment in which a local endpoint owns every
destination address. -/
def envOwn : Env :=
  { envW with FreeRTOS_FindEndPointOnIP_IPv4 := fun _ _ => some 0 }

/-- `frameOK` with version/IHL byte `0x44` (16-byte header: below the
minimum). -/
def frameBadIHL : List Nat := setByte frameOK 14 0x44

def dsBadIHL : NetworkBufferDescriptor :=
  { pucEthernetBuffer := frameBadIHL, xDataLength := 46, pxEndPoint := none }

/-- C8: with the software packet filter active and the fragmentation
check passing, a frame is dropped unless its version/header-length byte
encodes version 4 with a header byte length inside `[20, 60]`; the
boundary encodings `0x45` (20 bytes) and `0x4F` (60 bytes) pass the
family-A block whenever the remaining family-A checks pass. -/
theorem c8_header_length_bounds :
    (∀ (cfg : Config) (env : Env) (ds : NetworkBufferDescriptor) (hl xc : Nat),
      cfg.ethernetDriverFiltersPackets = false →
      getByte ds.pucEthernetBuffer 20 % 32 * 256 +
        getByte ds.pucEthernetBuffer 21 = 0 →
      getByte ds.pucEthernetBuffer 20 / 32 % 2 = 0 →
      ¬(getByte ds.pucEthernetBuffer 14 / 16 = 4 ∧
        20 ≤ getByte ds.pucEthernetBuffer 14 % 16 * 4 ∧
        getByte ds.pucEthernetBuffer 14 % 16 * 4 ≤ 60) →
      (prvAllowIPPacketIPv4 cfg env ds hl xc).1 = eReleaseBuffer) ∧
    (∀ (env : Env) (ds : NetworkBufferDescriptor),
      getByte ds.pucEthernetBuffer 20 % 32 * 256 +
        getByte ds.pucEthernetBuffer 21 = 0 →
      getByte ds.pucEthernetBuffer 20 / 32 % 2 = 0 →
      (getByte ds.pucEthernetBuffer 14 = 0x45 ∨
        getByte ds.pucEthernetBuffer 14 = 0x4F) →
      ¬ destinationUnreachable env ds →
      FreeRTOS_ntohl (ulSourceIPAddress ds.pucEthernetBuffer) &&& 0xff ≠ 0xff →
      ¬(macBytes ds.pucEthernetBuffer 0 = xBroadcastMACAddress ∧
        FreeRTOS_ntohl (ulDestinationIPAddress ds.pucEthernetBuffer) &&& 0xff ≠ 0xff) →
      macBytes ds.pucEthernetBuffer 6 ≠ xBroadcastMACAddress →
      xIsIPv4Multicast (ulSourceIPAddress ds.pucEthernetBuffer) = false →
      familyAVerdict env ds = eProcessBuffer) := by
  constructor
  · intro cfg env ds hl xc hA hoff hmf hbad
    have hb := getByte_lt ds.pucEthernetBuffer 14
    have hwin := (version_header_length_window _ hb).mpr hbad
    have hnofrag : ¬(usFragmentOffset ds.pucEthernetBuffer &&&
          ipFRAGMENT_OFFSET_BIT_MASK ≠ 0 ∨
        usFragmentOffset ds.pucEthernetBuffer &&&
          ipFRAGMENT_FLAGS_MORE_FRAGMENTS ≠ 0) := by
      rw [frag_offset_mask_eq, frag_mf_mask_eq]
      omega
    have hfam : familyAVerdict env ds = eReleaseBuffer := by
      unfold familyAVerdict
      rw [if_neg hnofrag, if_pos (by
        simp only [ucVersionHeaderLength, ipIPV4_VERSION_HEADER_LENGTH_MIN,
          ipIPV4_VERSION_HEADER_LENGTH_MAX]
        omega)]
    exact prvAllowIPPacketIPv4_of_famA_release cfg env ds hl xc
      (by simp [famAStage, hA, hfam])
  · intro env ds hoff hmf hvb h3 h4 h5 h6 h7
    have hnofrag : ¬(usFragmentOffset ds.pucEthernetBuffer &&&
          ipFRAGMENT_OFFSET_BIT_MASK ≠ 0 ∨
        usFragmentOffset ds.pucEthernetBuffer &&&
          ipFRAGMENT_FLAGS_MORE_FRAGMENTS ≠ 0) := by
      rw [frag_offset_mask_eq, frag_mf_mask_eq]
      omega
    have h7' : ¬(xIsIPv4Multicast (ulSourceIPAddress ds.pucEthernetBuffer) = true) := by
      simp [h7]
    unfold familyAVerdict
    rw [if_neg hnofrag, if_neg (by
        simp only [ucVersionHeaderLength, ipIPV4_VERSION_HEADER_LENGTH_MIN,
          ipIPV4_VERSION_HEADER_LENGTH_MAX]
        omega),
      if_neg h3, if_neg h4, if_neg h5, if_neg h6, if_neg h7']

/-- Witness for C8: a 16-byte-header frame is dropped; the same frame
with the minimal legal encoding `0x45` passes family A when an endpoint
owns the destination. -/
theorem c8_header_length_bounds_witness :
    (prvAllowIPPacketIPv4 cfgSoft envW dsBadIHL 20 0).1 = eReleaseBuffer ∧
    familyAVerdict envOwn dsOK = eProcessBuffer := by
  constructor
  · exact c8_header_length_bounds.1 cfgSoft envW dsBadIHL 20 0 rfl
      (by decide) (by decide) (by decide)
  · exact c8_header_length_bounds.2 envOwn dsOK (by decide) (by decide)
      (Or.inl (by decide)) (by decide) (by decide) (by decide) (by decide)
      (by decide)

/-- `frameOK` with destination address 192.168.1.255 (an `x.x.x.255`
broadcast pattern). -/
def frameBcastDest : List Nat := listWrite frameOK 30 [0xC0, 0xA8, 0x01, 0xFF]

def dsBcastDest : NetworkBufferDescriptor :=
  { pucEthernetBuffer := frameBcastDest, xDataLength := 46, pxEndPoint := none }

/-- C2: with the software packet filter active and the fragmentation and
header-length checks passing (and the remaining family-A checks not
firing), the family-A block drops a frame exactly when the
destination-reachability guard holds: no endpoint is attached to the
buffer, no local endpoint owns the destination address, the destination
is not an `x.x.x.255` broadcast, it is not multicast, and the network is
up.  In particular a frame whose destination is 192.168.1.255 (wire
bytes `C0 A8 01 FF`, little-endian load `0xFF01A8C0`) with no matching
endpoint and the network up never satisfies the guard. -/
theorem c2_destination_reachability :
    (∀ (env : Env) (ds : NetworkBufferDescriptor),
      getByte ds.pucEthernetBuffer 20 % 32 * 256 +
        getByte ds.pucEthernetBuffer 21 = 0 →
      getByte ds.pucEthernetBuffer 20 / 32 % 2 = 0 →
      (getByte ds.pucEthernetBuffer 14 / 16 = 4 ∧
        20 ≤ getByte ds.pucEthernetBuffer 14 % 16 * 4 ∧
        getByte ds.pucEthernetBuffer 14 % 16 * 4 ≤ 60) →
      FreeRTOS_ntohl (ulSourceIPAddress ds.pucEthernetBuffer) &&& 0xff ≠ 0xff →
      ¬(macBytes ds.pucEthernetBuffer 0 = xBroadcastMACAddress ∧
        FreeRTOS_ntohl (ulDestinationIPAddress ds.pucEthernetBuffer) &&& 0xff ≠ 0xff) →
      macBytes ds.pucEthernetBuffer 6 ≠ xBroadcastMACAddress →
      xIsIPv4Multicast (ulSourceIPAddress ds.pucEthernetBuffer) = false →
      (familyAVerdict env ds = eReleaseBuffer ↔ destinationUnreachable env ds)) ∧
    (∀ (env : Env) (ds : NetworkBufferDescriptor),
      ulDestinationIPAddress ds.pucEthernetBuffer = 0xFF01A8C0 →
      ds.pxEndPoint = none →
      env.FreeRTOS_FindEndPointOnIP_IPv4
        (ulDestinationIPAddress ds.pucEthernetBuffer) 4 = none →
      env.FreeRTOS_IsNetworkUp = true →
      ¬ destinationUnreachable env ds) := by
  constructor
  · intro env ds hoff hmf hvb h4 h5 h6 h7
    have hb := getByte_lt ds.pucEthernetBuffer 14
    have hnofrag : ¬(usFragmentOffset ds.pucEthernetBuffer &&&
          ipFRAGMENT_OFFSET_BIT_MASK ≠ 0 ∨
        usFragmentOffset ds.pucEthernetBuffer &&&
          ipFRAGMENT_FLAGS_MORE_FRAGMENTS ≠ 0) := by
      rw [frag_offset_mask_eq, frag_mf_mask_eq]
      omega
    have hwin := fun h => (version_header_length_window _ hb).mp h hvb
    have h7' : ¬(xIsIPv4Multicast (ulSourceIPAddress ds.pucEthernetBuffer) = true) := by
      simp [h7]
    unfold familyAVerdict
    rw [if_neg hnofrag, if_neg (by
        simp only [ucVersionHeaderLength, ipIPV4_VERSION_HEADER_LENGTH_MIN,
          ipIPV4_VERSION_HEADER_LENGTH_MAX]
        omega)]
    by_cases hd : destinationUnreachable env ds
    · rw [if_pos hd]
      simp [hd]
    · rw [if_neg hd, if_neg h4, if_neg h5, if_neg h6, if_neg h7']
      simp [hd]
  · intro env ds hdest _ _ _ hguard
    have hbc := hguard.2.2.1
    rw [hdest] at hbc
    exact hbc (by decide)

/-- Witness for C2: with no matching endpoint the unicast witness frame
is dropped by family A and the guard holds; the broadcast-destination
frame never satisfies the guard. -/
theorem c2_destination_reachability_witness :
    (familyAVerdict envW dsOK = eReleaseBuffer ↔ destinationUnreachable envW dsOK) ∧
    ¬ destinationUnreachable envW dsBcastDest := by
  constructor
  · exact c2_destination_reachability.1 envW dsOK (by decide) (by decide)
      (by decide) (by decide) (by decide) (by decide) (by decide)
  · exact c2_destination_reachability.2 envW dsBcastDest (by decide) rfl rfl rfl

/-- An environment that trusts loop-back frames: the source MAC resolves
to a local endpoint, while the checksum oracle reports a failure for
every recomputation. -/
def envLoop : Env :=
  { envOwn with
    FreeRTOS_FindEndPointOnMAC := fun _ => some 0
    usGenerateChecksum := fun _ _ => 0
    usGenerateProtocolChecksum := fun _ _ _ => 0 }

/-- C3: with software checksum verification active and family A passing,
a frame whose source MAC does not resolve to a local endpoint is
accepted iff both the recomputed IP-header checksum (computed over the
header bytes, checksum field included) and the recomputed protocol
checksum equal the correct-checksum sentinel; a frame whose source MAC
does resolve to a local endpoint is accepted with no condition on either
checksum oracle. -/
theorem c3_checksum_loopback :
    (∀ (cfg : Config) (env : Env) (ds : NetworkBufferDescriptor) (hl xc : Nat),
      cfg.driverIncludedRxChecksum = false →
      famAStage cfg env ds = eProcessBuffer →
      env.FreeRTOS_FindEndPointOnMAC (macBytes ds.pucEthernetBuffer 6) = none →
      ((prvAllowIPPacketIPv4 cfg env ds hl xc).1 = eProcessBuffer ↔
        env.usGenerateChecksum 0 ((ds.pucEthernetBuffer.drop 14).take hl) =
          ipCORRECT_CRC ∧
        env.usGenerateProtocolChecksum ds.pucEthernetBuffer ds.xDataLength false =
          ipCORRECT_CRC)) ∧
    (∀ (cfg : Config) (env : Env) (ds : NetworkBufferDescriptor)
        (hl xc ep : Nat),
      cfg.driverIncludedRxChecksum = false →
      famAStage cfg env ds = eProcessBuffer →
      env.FreeRTOS_FindEndPointOnMAC (macBytes ds.pucEthernetBuffer 6) = some ep →
      (prvAllowIPPacketIPv4 cfg env ds hl xc).1 = eProcessBuffer) := by
  have hstage : ∀ (cfg : Config) (env : Env) (ds : NetworkBufferDescriptor)
      (hl xc : Nat), cfg.driverIncludedRxChecksum = false →
      (prvAllowIPPacketIPv4 cfg env ds hl xc).1 =
        swChecksumStage env ds hl (famAStage cfg env ds) := by
    intro cfg env ds hl xc hB
    unfold prvAllowIPPacketIPv4
    rw [if_pos hB]
  constructor
  · intro cfg env ds hl xc hB hfam hmac
    rw [hstage cfg env ds hl xc hB, hfam]
    unfold swChecksumStage
    rw [if_pos rfl, hmac]
    by_cases h1 : env.usGenerateChecksum 0
        ((ds.pucEthernetBuffer.drop 14).take hl) = ipCORRECT_CRC
    · by_cases h2 : env.usGenerateProtocolChecksum ds.pucEthernetBuffer
          ds.xDataLength false = ipCORRECT_CRC
      · simp [h1, h2]
      · simp [h1, h2]
    · simp [h1]
  · intro cfg env ds hl xc ep hB hfam hmac
    rw [hstage cfg env ds hl xc hB, hfam]
    unfold swChecksumStage
    rw [if_pos rfl, hmac]

/-- Witness for C3: the witness frame is accepted when the oracles
report correct checksums (non-loop-back), and accepted with failing
checksum oracles when the source MAC resolves locally (loop-back). -/
theorem c3_checksum_loopback_witness :
    (prvAllowIPPacketIPv4 cfgSoft envOwn dsOK 20 0).1 = eProcessBuffer ∧
    (prvAllowIPPacketIPv4 cfgSoft envLoop dsOK 20 0).1 = eProcessBuffer := by
  constructor
  · exact (c3_checksum_loopback.1 cfgSoft envOwn dsOK 20 0 rfl (by decide)
      rfl).mpr ⟨rfl, rfl⟩
  · exact c3_checksum_loopback.2 cfgSoft envLoop dsOK 20 0 0 rfl (by decide) rfl

/-- The hardware-checksum branch of `prvAllowIPPacketIPv4` as an
equation. -/
theorem prvAllowIPPacketIPv4_hw (cfg : Config) (env : Env)
    (ds : NetworkBufferDescriptor) (hl xc : Nat)
    (hB : cfg.driverIncludedRxChecksum = true) :
    prvAllowIPPacketIPv4 cfg env ds hl xc =
      ((zeroChecksumStage cfg ds (sizeCheckStage env ds (famAStage cfg env ds)) xc).1,
       ds,
       (zeroChecksumStage cfg ds (sizeCheckStage env ds (famAStage cfg env ds)) xc).2.1,
       (zeroChecksumStage cfg ds (sizeCheckStage env ds (famAStage cfg env ds)) xc).2.2) := by
  unfold prvAllowIPPacketIPv4
  rw [if_neg (by simp [hB])]

/-- Under the strict zero-checksum policy, a zero-checksum UDP frame
makes `zeroChecksumStage` return `eReleaseBuffer` whatever came in. -/
theorem zeroChecksumStage_udp_zero (cfg : Config)
    (ds : NetworkBufferDescriptor) (eIn : eFrameProcessingResult) (xc : Nat)
    (hstrict : cfg.udpPassZeroChecksumPackets = false)
    (hproto : (if usFrameType ds.pucEthernetBuffer = ipIPv6_FRAME_TYPE then
        getByte ds.pucEthernetBuffer 20
      else ucProtocol ds.pucEthernetBuffer) = ipPROTOCOL_UDP)
    (hzero : loadU16 ds.pucEthernetBuffer
        ((if usFrameType ds.pucEthernetBuffer = ipIPv6_FRAME_TYPE then 54 else 34)
          + 6) = 0) :
    (zeroChecksumStage cfg ds eIn xc).1 = eReleaseBuffer := by
  unfold zeroChecksumStage
  rw [if_neg (by simp [hstrict])]
  rcases eResult_cases eIn with h | h
  · rw [if_pos h]
    by_cases hft : usFrameType ds.pucEthernetBuffer = ipIPv6_FRAME_TYPE
    · rw [if_pos hft] at hproto hzero
      simp only [if_pos hft, ipSIZE_OF_ETH_HEADER, ipSIZE_OF_IPv6_HEADER]
      rw [if_pos hproto, if_pos hzero]
      split
      · rfl
      · rfl
    · rw [if_neg hft] at hproto hzero
      simp only [if_neg hft, ipSIZE_OF_ETH_HEADER, ipSIZE_OF_IPv4_HEADER]
      rw [if_pos hproto, if_pos hzero]
      split
      · rfl
      · rfl
  · rw [h]
    simp

/-- The verdict of `zeroChecksumStage` ignores both the log counter and
the printf switch. -/
theorem zeroChecksumStage_fst_congr (cfg : Config)
    (ds : NetworkBufferDescriptor) (eIn : eFrameProcessingResult)
    (xc xc' : Nat) (hp : Bool) :
    (zeroChecksumStage { cfg with hasPrintf := hp } ds eIn xc).1 =
      (zeroChecksumStage cfg ds eIn xc').1 := by
  unfold zeroChecksumStage
  dsimp only
  split_ifs <;> rfl

/-- The log counter grows by the number of emitted lines, at most one
per call and only while the counter is below 5. -/
theorem zeroChecksumStage_count (cfg : Config)
    (ds : NetworkBufferDescriptor) (eIn : eFrameProcessingResult)
    (xc : Nat) :
    (zeroChecksumStage cfg ds eIn xc).2.2 ≤ 1 ∧
    (zeroChecksumStage cfg ds eIn xc).2.1 =
      xc + (zeroChecksumStage cfg ds eIn xc).2.2 ∧
    ((zeroChecksumStage cfg ds eIn xc).2.2 = 1 → xc < 5) := by
  unfold zeroChecksumStage
  by_cases hpass : cfg.udpPassZeroChecksumPackets = true
  · rw [if_pos hpass]
    simp
  · rw [if_neg hpass]
    rcases eResult_cases eIn with h | h
    · rw [if_pos h]
      dsimp only
      repeat' split
      all_goals simp_all
    · rw [h]
      simp

/-- C5: in the configuration family that hosts the strict
zero-checksum-UDP policy (driver-validated checksums), every frame whose
transport protocol — read from the IPv4 protocol field or the IPv6
next-header field according to the frame type — is UDP and whose UDP
checksum field (at the offset selected by that frame type) is zero is
dropped; the verdict never depends on the printf switch or on the state
of the rate-limited log counter, which grows by at most one line per
call and only while below its limit of 5; and under the permissive
zero-checksum configuration the verdict is exactly the outcome of the
earlier stages, with the zero-checksum test compiled out. -/
theorem c5_zero_checksum_udp :
    (∀ (cfg : Config) (env : Env) (ds : NetworkBufferDescriptor) (hl xc : Nat),
      cfg.driverIncludedRxChecksum = true →
      cfg.udpPassZeroChecksumPackets = false →
      usFrameType ds.pucEthernetBuffer ≠ ipIPv6_FRAME_TYPE →
      ucProtocol ds.pucEthernetBuffer = ipPROTOCOL_UDP →
      loadU16 ds.pucEthernetBuffer 40 = 0 →
      (prvAllowIPPacketIPv4 cfg env ds hl xc).1 = eReleaseBuffer) ∧
    (∀ (cfg : Config) (env : Env) (ds : NetworkBufferDescriptor) (hl xc : Nat),
      cfg.driverIncludedRxChecksum = true →
      cfg.udpPassZeroChecksumPackets = false →
      usFrameType ds.pucEthernetBuffer = ipIPv6_FRAME_TYPE →
      getByte ds.pucEthernetBuffer 20 = ipPROTOCOL_UDP →
      loadU16 ds.pucEthernetBuffer 60 = 0 →
      (prvAllowIPPacketIPv4 cfg env ds hl xc).1 = eReleaseBuffer) ∧
    (∀ (cfg : Config) (env : Env) (ds : NetworkBufferDescriptor)
        (hl xc xc' : Nat) (hp : Bool),
      (prvAllowIPPacketIPv4 { cfg with hasPrintf := hp } env ds hl xc).1 =
        (prvAllowIPPacketIPv4 cfg env ds hl xc').1) ∧
    (∀ (cfg : Config) (env : Env) (ds : NetworkBufferDescriptor) (hl xc : Nat),
      (prvAllowIPPacketIPv4 cfg env ds hl xc).2.2.2 ≤ 1 ∧
      (prvAllowIPPacketIPv4 cfg env ds hl xc).2.2.1 =
        xc + (prvAllowIPPacketIPv4 cfg env ds hl xc).2.2.2 ∧
      ((prvAllowIPPacketIPv4 cfg env ds hl xc).2.2.2 = 1 → xc < 5)) ∧
    (∀ (cfg : Config) (env : Env) (ds : NetworkBufferDescriptor) (hl xc : Nat),
      cfg.driverIncludedRxChecksum = true →
      cfg.udpPassZeroChecksumPackets = true →
      (prvAllowIPPacketIPv4 cfg env ds hl xc).1 =
        sizeCheckStage env ds (famAStage cfg env ds)) := by
  refine ⟨?_, ?_, ?_, ?_, ?_⟩
  · intro cfg env ds hl xc hB hstrict hft hproto hzero
    rw [prvAllowIPPacketIPv4_hw cfg env ds hl xc hB]
    exact zeroChecksumStage_udp_zero cfg ds _ xc hstrict
      (by rw [if_neg hft]; exact hproto) (by rw [if_neg hft]; exact hzero)
  · intro cfg env ds hl xc hB hstrict hft hproto hzero
    rw [prvAllowIPPacketIPv4_hw cfg env ds hl xc hB]
    exact zeroChecksumStage_udp_zero cfg ds _ xc hstrict
      (by rw [if_pos hft]; exact hproto) (by rw [if_pos hft]; exact hzero)
  · intro cfg env ds hl xc xc' hp
    by_cases hB : cfg.driverIncludedRxChecksum = true
    · rw [prvAllowIPPacketIPv4_hw cfg env ds hl xc' hB,
        prvAllowIPPacketIPv4_hw { cfg with hasPrintf := hp } env ds hl xc
          (by simpa using hB)]
      have h := zeroChecksumStage_fst_congr cfg ds
        (sizeCheckStage env ds (famAStage cfg env ds)) xc xc' hp
      simpa [famAStage, sizeCheckStage] using h
    · have hB' : cfg.driverIncludedRxChecksum = false := by
        simpa using hB
      unfold prvAllowIPPacketIPv4
      rw [if_pos hB', if_pos (show Config.driverIncludedRxChecksum
        { cfg with hasPrintf := hp } = false from by simpa using hB')]
      simp [famAStage]
  · intro cfg env ds hl xc
    by_cases hB : cfg.driverIncludedRxChecksum = true
    · rw [prvAllowIPPacketIPv4_hw cfg env ds hl xc hB]
      exact zeroChecksumStage_count cfg ds
        (sizeCheckStage env ds (famAStage cfg env ds)) xc
    · have hB' : cfg.driverIncludedRxChecksum = false := by
        simpa using hB
      unfold prvAllowIPPacketIPv4
      rw [if_pos hB']
      simp
  · intro cfg env ds hl xc hB hpass
    rw [prvAllowIPPacketIPv4_hw cfg env ds hl xc hB]
    unfold zeroChecksumStage
    rw [if_pos hpass]

/-- `frameOK` with the UDP checksum field zeroed. -/
def frameUDP0 : List Nat := listWrite frameOK 40 [0x00, 0x00]

def dsUDP0 : NetworkBufferDescriptor :=
  { pucEthernetBuffer := frameUDP0, xDataLength := 46, pxEndPoint := none }

/-- An IPv6/UDP frame (frame type `86 DD`) with a zero UDP checksum:
14-byte Ethernet header, 40-byte IPv6 header (next header 17 at offset
20), 8-byte UDP header with checksum bytes 60-61 zero. -/
def frameV6UDP0 : List Nat :=
  [0x11, 0x22, 0x33, 0x44, 0x55, 0x66,
   0xAA, 0xBB, 0xCC, 0xDD, 0xEE, 0x01,
   0x86, 0xDD,
   0x60, 0x00, 0x00, 0x00, 0x00, 0x08, 0x11, 0x40,
   0xFE, 0x80, 0x00, 0x00, 0x00, 0x00, 0x00, 0x00,
   0x00, 0x00, 0x00, 0x00, 0x00, 0x00, 0x00, 0x01,
   0xFE, 0x80, 0x00, 0x00, 0x00, 0x00, 0x00, 0x00,
   0x00, 0x00, 0x00, 0x00, 0x00, 0x00, 0x00, 0x02,
   0x00, 0x35, 0x00, 0x35, 0x00, 0x08, 0x00, 0x00]

def dsV6UDP0 : NetworkBufferDescriptor :=
  { pucEthernetBuffer := frameV6UDP0, xDataLength := 62, pxEndPoint := none }

/-- Driver-validated-checksum configuration with the strict zero-checksum
policy and printf-based diagnostics; the driver also pre-filters, so
family A is compiled out. -/
def cfgHW : Config :=
  { ethernetDriverFiltersPackets := true
    driverIncludedRxChecksum := true
    udpPassZeroChecksumPackets := false
    hasPrintf := true }

/-- Same as `cfgHW` but accepting zero-checksum UDP segments. -/
def cfgHWPass : Config :=
  { cfgHW with udpPassZeroChecksumPackets := true }

/-- Witness for C5 at concrete frames: the strict policy drops both the
IPv4-typed and the IPv6-typed zero-checksum UDP frames, and the
permissive policy leaves the witness frame's verdict to the earlier
stages (which accept it). -/
theorem c5_zero_checksum_udp_witness :
    (prvAllowIPPacketIPv4 cfgHW envW dsUDP0 20 0).1 = eReleaseBuffer ∧
    (prvAllowIPPacketIPv4 cfgHW envW dsV6UDP0 40 0).1 = eReleaseBuffer ∧
    (prvAllowIPPacketIPv4 cfgHWPass envW dsUDP0 20 0).1 =
      sizeCheckStage envW dsUDP0 (famAStage cfgHWPass envW dsUDP0) := by
  refine ⟨?_, ?_, ?_⟩
  · exact c5_zero_checksum_udp.1 cfgHW envW dsUDP0 20 0 rfl rfl
      (by decide) (by decide) (by decide)
  · exact c5_zero_checksum_udp.2.1 cfgHW envW dsV6UDP0 40 0 rfl rfl
      (by decide) (by decide) (by decide)
  · exact c5_zero_checksum_udp.2.2.2.2 cfgHWPass envW dsUDP0 20 0 rfl rfl

/-- Family A compiled out, software checksum verification (family B)
active, strict zero-checksum policy. -/
def cfgSwNoFilter : Config :=
  { ethernetDriverFiltersPackets := true
    driverIncludedRxChecksum := false
    udpPassZeroChecksumPackets := false
    hasPrintf := false }

/-- An environment whose size-field validation collaborator reports an
inconsistency for every frame. -/
def envBadSize : Env :=
  { envW with xCheckSizeFields := fun _ _ => false }

/-- Counterexample to C4 as stated: with check family B active (software
checksum verification compiled in) and family A not rejecting, a frame
whose declared sizes are inconsistent — the size-validation collaborator
rejects it — is nevertheless accepted: no structural size validation
runs before (or after) the checksum recomputation in this configuration. -/
theorem c4_counterexample :
    envBadSize.xCheckSizeFields dsOK.pucEthernetBuffer dsOK.xDataLength = false ∧
    (prvAllowIPPacketIPv4 cfgSwNoFilter envBadSize dsOK 20 0).1 = eProcessBuffer := by
  exact ⟨rfl, by decide⟩

/-- C4 (amended): the structural size validation `xCheckSizeFields` runs
exactly in the configuration whose checksum recomputation is disabled
(driver-validated checksums).  There it runs unconditionally — whatever
the zero-checksum sub-configuration — once family A has passed, and an
inconsistent frame is dropped; when software checksum verification is
active instead, the admission filter never consults the size-validation
collaborator. -/
theorem c4_size_check_amended :
    (∀ (cfg : Config) (env : Env) (ds : NetworkBufferDescriptor) (hl xc : Nat),
      cfg.driverIncludedRxChecksum = true →
      famAStage cfg env ds = eProcessBuffer →
      env.xCheckSizeFields ds.pucEthernetBuffer ds.xDataLength = false →
      (prvAllowIPPacketIPv4 cfg env ds hl xc).1 = eReleaseBuffer) ∧
    (∀ (cfg : Config) (env : Env) (ds : NetworkBufferDescriptor)
        (hl xc : Nat) (f : List Nat → Nat → Bool),
      cfg.driverIncludedRxChecksum = false →
      prvAllowIPPacketIPv4 cfg { env with xCheckSizeFields := f } ds hl xc =
        prvAllowIPPacketIPv4 cfg env ds hl xc) := by
  constructor
  · intro cfg env ds hl xc hB hfam hsz
    rw [prvAllowIPPacketIPv4_hw cfg env ds hl xc hB]
    have h1 : sizeCheckStage env ds (famAStage cfg env ds) = eReleaseBuffer := by
      unfold sizeCheckStage
      rw [if_pos ⟨hfam, hsz⟩]
    rw [h1]
    exact zeroChecksumStage_release cfg ds xc
  · intro cfg env ds hl xc f hB
    unfold prvAllowIPPacketIPv4
    rw [if_pos hB, if_pos (show Config.driverIncludedRxChecksum cfg = false from hB)]
    unfold swChecksumStage famAStage familyAVerdict destinationUnreachable
    rfl

/-- Witness for C4 (amended): the size-inconsistent frame is dropped in
the driver-validated-checksum configuration, and in the software-checksum
configuration the verdict ignores the size oracle. -/
theorem c4_size_check_amended_witness :
    (prvAllowIPPacketIPv4 cfgHW envBadSize dsOK 20 0).1 = eReleaseBuffer ∧
    prvAllowIPPacketIPv4 cfgSwNoFilter
        { envW with xCheckSizeFields := fun _ _ => false } dsOK 20 0 =
      prvAllowIPPacketIPv4 cfgSwNoFilter envW dsOK 20 0 := by
  constructor
  · exact c4_size_check_amended.1 cfgHW envBadSize dsOK 20 0 rfl (by decide) rfl
  · exact c4_size_check_amended.2 cfgSwNoFilter envW dsOK 20 0
      (fun _ _ => false) rfl

/-- C9: when option-bearing packets are configured to be rejected,
`prvCheckIP4HeaderOptions` returns `eReleaseBuffer` and performs no
mutation at all: the descriptor — frame bytes, logical data length and
attached endpoint — comes back exactly as it went in, for every frame. -/
theorem c9_options_rejected_no_mutation (ds : NetworkBufferDescriptor) :
    prvCheckIP4HeaderOptions false ds = (eReleaseBuffer, ds) := by
  rfl

/-- C10: `prvAllowIPPacketIPv4` never mutates its inputs: for every
configuration, environment, frame and counter state the returned
descriptor (frame bytes, logical data length, attached endpoint) is the
one that was passed in, whichever verdict is produced; the embedding of
the whole component confines buffer rewriting to
`prvCheckIP4HeaderOptions`. -/
theorem c10_filter_no_mutation (cfg : Config) (env : Env)
    (ds : NetworkBufferDescriptor) (hl xc : Nat) :
    (prvAllowIPPacketIPv4 cfg env ds hl xc).2.1 = ds := by
  unfold prvAllowIPPacketIPv4
  split
  · rfl
  · rfl

/-! ## Helper lemmas for the option stripper -/

theorem usub_eq (a b : Nat) (hb : b ≤ a) (ha : a < SIZE_T_MOD) :
    usub a b = a - b := by
  unfold usub SIZE_T_MOD at *
  omega

theorem and_15_eq_mod (n : Nat) : n &&& 15 = n % 16 := by
  simpa using Nat.and_pow_two_sub_one_eq_mod n 4

theorem ntohs_lt (x : Nat) : FreeRTOS_ntohs x < 65536 := by
  unfold FreeRTOS_ntohs
  omega

theorem ntohs_involution (x : Nat) (hx : x < 65536) :
    FreeRTOS_ntohs (FreeRTOS_ntohs x) = x := by
  unfold FreeRTOS_ntohs
  have h1 : x / 256 % 256 = x / 256 := by omega
  rw [h1]
  have h2 : (x % 256 * 256 + x / 256) % 256 = x / 256 := by omega
  have h3 : (x % 256 * 256 + x / 256) / 256 = x % 256 := by omega
  rw [h2, h3]
  omega

theorem length_setByte (buf : List Nat) (i v : Nat) :
    (setByte buf i v).length = buf.length := by
  unfold setByte
  exact List.length_set ..

theorem getByte_setByte_ne (buf : List Nat) (i j v : Nat) (hij : i ≠ j) :
    getByte (setByte buf i v) j = getByte buf j := by
  unfold getByte setByte
  rw [List.getD_eq_getElem?_getD, List.getD_eq_getElem?_getD,
    List.getElem?_set_ne hij]

theorem getByte_setByte_self (buf : List Nat) (i v : Nat)
    (hi : i < buf.length) :
    getByte (setByte buf i v) i = v % 256 := by
  unfold getByte setByte
  rw [List.getD_eq_getElem?_getD, List.getElem?_set_self hi]
  simp [Nat.mod_mod_of_dvd]

theorem length_storeU16 (buf : List Nat) (i v : Nat) :
    (storeU16 buf i v).length = buf.length := by
  unfold storeU16
  rw [length_setByte, length_setByte]

theorem getByte_storeU16_ne (buf : List Nat) (i j v : Nat)
    (h1 : i ≠ j) (h2 : i + 1 ≠ j) :
    getByte (storeU16 buf i v) j = getByte buf j := by
  unfold storeU16
  rw [getByte_setByte_ne _ _ _ _ h2, getByte_setByte_ne _ _ _ _ h1]

theorem loadU16_storeU16 (buf : List Nat) (i v : Nat)
    (hi : i + 1 < buf.length) :
    loadU16 (storeU16 buf i v) i = v % 65536 := by
  unfold loadU16 storeU16
  rw [getByte_setByte_ne _ _ _ _ (by omega),
    getByte_setByte_self _ _ _ (by omega),
    getByte_setByte_self _ _ _ (by rw [length_setByte]; omega)]
  omega

theorem length_listWrite (buf : List Nat) (dst : Nat) (s : List Nat)
    (h : dst + s.length ≤ buf.length) :
    (listWrite buf dst s).length = buf.length := by
  unfold listWrite
  rw [List.length_append, List.length_append, List.length_take,
    List.length_drop]
  omega

theorem getByte_listWrite_lo (buf : List Nat) (dst : Nat) (s : List Nat)
    (j : Nat) (hj : j < dst) (hd : dst ≤ buf.length) :
    getByte (listWrite buf dst s) j = getByte buf j := by
  unfold listWrite getByte
  have ht : (buf.take dst).length = dst := by
    rw [List.length_take]
    omega
  rw [List.getD_eq_getElem?_getD, List.getD_eq_getElem?_getD,
    List.getElem?_append_left (by rw [List.length_append, ht]; omega),
    List.getElem?_append_left (by rw [ht]; omega),
    List.getElem?_take_of_lt hj]

theorem getByte_listWrite_mid (buf : List Nat) (dst : Nat) (s : List Nat)
    (j : Nat) (hj : j < s.length) (hd : dst ≤ buf.length) :
    getByte (listWrite buf dst s) (dst + j) = s.getD j 0 % 256 := by
  unfold listWrite getByte
  have ht : (buf.take dst).length = dst := by
    rw [List.length_take]
    omega
  rw [List.getD_eq_getElem?_getD,
    List.getElem?_append_left (by rw [List.length_append, ht]; omega),
    List.getElem?_append_right (by rw [ht]; omega), ht,
    Nat.add_sub_cancel_left, List.getD_eq_getElem?_getD]

theorem getByte_memmove_lo (buf : List Nat) (dst src len j : Nat)
    (hj : j < dst) (hd : dst ≤ buf.length) :
    getByte (memmoveBytes buf dst src len) j = getByte buf j := by
  unfold memmoveBytes
  exact getByte_listWrite_lo buf dst _ j hj hd

theorem getByte_memmove_mid (buf : List Nat) (dst src len j : Nat)
    (hj : j < len) (hsrc : src + len ≤ buf.length) (hd : dst ≤ buf.length) :
    getByte (memmoveBytes buf dst src len) (dst + j) =
      getByte buf (src + j) := by
  have hm : ((buf.drop src).take len).length = len := by
    rw [List.length_take, List.length_drop]
    omega
  unfold memmoveBytes
  rw [getByte_listWrite_mid buf dst _ j (by rw [hm]; exact hj) hd]
  unfold getByte
  rw [List.getD_eq_getElem?_getD, List.getElem?_take_of_lt hj,
    List.getElem?_drop, List.getD_eq_getElem?_getD]

theorem length_memmove (buf : List Nat) (dst src len : Nat)
    (hsrc : src + len ≤ buf.length) (hd : dst + len ≤ buf.length) :
    (memmoveBytes buf dst src len).length = buf.length := by
  have hm : ((buf.drop src).take len).length = len := by
    rw [List.length_take, List.length_drop]
    omega
  unfold memmoveBytes
  rw [length_listWrite _ _ _ (by rw [hm]; exact hd)]

/-! ## Unfolding equations for the pass-options branch -/

theorem prvCheck_pass_fst (ds : NetworkBufferDescriptor) :
    (prvCheckIP4HeaderOptions true ds).1 = eProcessBuffer := rfl

theorem prvCheck_pass_len (ds : NetworkBufferDescriptor) :
    (prvCheckIP4HeaderOptions true ds).2.xDataLength =
      usub ds.xDataLength
        (usub ((getByte ds.pucEthernetBuffer 14 &&& 0x0F) * 4) 20) := rfl

theorem prvCheck_pass_ep (ds : NetworkBufferDescriptor) :
    (prvCheckIP4HeaderOptions true ds).2.pxEndPoint = ds.pxEndPoint := rfl

theorem prvCheck_pass_buffer (ds : NetworkBufferDescriptor) :
    (prvCheckIP4HeaderOptions true ds).2.pucEthernetBuffer =
      setByte
        (storeU16
          (memmoveBytes ds.pucEthernetBuffer 34
            (14 + (getByte ds.pucEthernetBuffer 14 &&& 0x0F) * 4)
            (usub ds.xDataLength
              (usub ((getByte ds.pucEthernetBuffer 14 &&& 0x0F) * 4) 20 + 20 + 14)))
          16
          (FreeRTOS_htons
            (usub
              (FreeRTOS_ntohs (usLengthField
                (memmoveBytes ds.pucEthernetBuffer 34
                  (14 + (getByte ds.pucEthernetBuffer 14 &&& 0x0F) * 4)
                  (usub ds.xDataLength
                    (usub ((getByte ds.pucEthernetBuffer 14 &&& 0x0F) * 4) 20 + 20 + 14)))))
              (usub ((getByte ds.pucEthernetBuffer 14 &&& 0x0F) * 4) 20))))
        14
        ((getByte
            (storeU16
              (memmoveBytes ds.pucEthernetBuffer 34
                (14 + (getByte ds.pucEthernetBuffer 14 &&& 0x0F) * 4)
                (usub ds.xDataLength
                  (usub ((getByte ds.pucEthernetBuffer 14 &&& 0x0F) * 4) 20 + 20 + 14)))
              16
              (FreeRTOS_htons
                (usub
                  (FreeRTOS_ntohs (usLengthField
                    (memmoveBytes ds.pucEthernetBuffer 34
                      (14 + (getByte ds.pucEthernetBuffer 14 &&& 0x0F) * 4)
                      (usub ds.xDataLength
                        (usub ((getByte ds.pucEthernetBuffer 14 &&& 0x0F) * 4) 20 + 20 + 14)))))
                  (usub ((getByte ds.pucEthernetBuffer 14 &&& 0x0F) * 4) 20))))
            14 &&& 0xF0) |||
          ((20 >>> 2) &&& 0x0F)) := rfl

/-- C1: for a frame whose IPv4 header length `h` (decoded from the
version/IHL byte) lies in `(20, 60]`, with enough data in the buffer,
the option-passing `prvCheckIP4HeaderOptions` accepts and rewrites the
buffer so that the payload bytes that started at `14 + h` now start at
`14 + 20 = 34` with unchanged values, the logical data length and the
(wire-order) IP total-length field both shrink by exactly `h - 20`, the
version/IHL byte encodes a 20-byte header with the version nibble
preserved, and the buffer is not reallocated (its physical length and
the attached endpoint are untouched). -/
theorem c1_option_stripping (ds : NetworkBufferDescriptor) (h : Nat)
    (hdef : h = (getByte ds.pucEthernetBuffer 14 &&& 0x0F) * 4)
    (h20 : 20 < h)
    (hlen : 14 + h ≤ ds.xDataLength)
    (hbuf : ds.xDataLength ≤ ds.pucEthernetBuffer.length)
    (hM : ds.xDataLength < SIZE_T_MOD)
    (hwire : h - 20 ≤ FreeRTOS_ntohs (usLengthField ds.pucEthernetBuffer)) :
    (prvCheckIP4HeaderOptions true ds).1 = eProcessBuffer ∧
    (prvCheckIP4HeaderOptions true ds).2.xDataLength =
      ds.xDataLength - (h - 20) ∧
    (∀ i, 14 + h + i < ds.xDataLength →
      getByte (prvCheckIP4HeaderOptions true ds).2.pucEthernetBuffer (34 + i) =
        getByte ds.pucEthernetBuffer (14 + h + i)) ∧
    FreeRTOS_ntohs (usLengthField
        (prvCheckIP4HeaderOptions true ds).2.pucEthernetBuffer) =
      FreeRTOS_ntohs (usLengthField ds.pucEthernetBuffer) - (h - 20) ∧
    getByte (prvCheckIP4HeaderOptions true ds).2.pucEthernetBuffer 14 / 16 =
      getByte ds.pucEthernetBuffer 14 / 16 ∧
    getByte (prvCheckIP4HeaderOptions true ds).2.pucEthernetBuffer 14 % 16 = 5 ∧
    (prvCheckIP4HeaderOptions true ds).2.pucEthernetBuffer.length =
      ds.pucEthernetBuffer.length ∧
    (prvCheckIP4HeaderOptions true ds).2.pxEndPoint = ds.pxEndPoint := by
  have hb : getByte ds.pucEthernetBuffer 14 < 256 := getByte_lt _ _
  have h60 : h ≤ 60 := by
    rw [hdef, and_15_eq_mod]
    omega
  have hopt : usub ((getByte ds.pucEthernetBuffer 14 &&& 0x0F) * 4) 20 =
      h - 20 := by
    rw [← hdef]
    exact usub_eq h 20 (by omega) (by unfold SIZE_T_MOD; omega)
  have hmv : usub ds.xDataLength
      (usub ((getByte ds.pucEthernetBuffer 14 &&& 0x0F) * 4) 20 + 20 + 14) =
      ds.xDataLength - (14 + h) := by
    rw [hopt]
    have h1 : h - 20 + 20 + 14 = 14 + h := by omega
    rw [h1, usub_eq _ _ (by omega) hM]
  have hmem14 : 14 + (getByte ds.pucEthernetBuffer 14 &&& 0x0F) * 4 =
      14 + h := by
    rw [← hdef]
  set mv := ds.xDataLength - (14 + h) with hmvdef
  set buf1 := memmoveBytes ds.pucEthernetBuffer 34 (14 + h) mv with hbuf1
  have h34 : 34 ≤ ds.pucEthernetBuffer.length := by omega
  have hlen1 : buf1.length = ds.pucEthernetBuffer.length := by
    rw [hbuf1]
    exact length_memmove _ _ _ _ (by omega) (by omega)
  have hb16 : getByte buf1 16 = getByte ds.pucEthernetBuffer 16 := by
    rw [hbuf1]
    exact getByte_memmove_lo _ _ _ _ _ (by omega) h34
  have hb17 : getByte buf1 17 = getByte ds.pucEthernetBuffer 17 := by
    rw [hbuf1]
    exact getByte_memmove_lo _ _ _ _ _ (by omega) h34
  have hb14 : getByte buf1 14 = getByte ds.pucEthernetBuffer 14 := by
    rw [hbuf1]
    exact getByte_memmove_lo _ _ _ _ _ (by omega) h34
  have husl1 : usLengthField buf1 = usLengthField ds.pucEthernetBuffer := by
    unfold usLengthField loadU16
    rw [hb16, hb17]
  have hWlt : FreeRTOS_ntohs (usLengthField ds.pucEthernetBuffer) < 65536 :=
    ntohs_lt _
  have husub3 : usub (FreeRTOS_ntohs (usLengthField buf1)) (h - 20) =
      FreeRTOS_ntohs (usLengthField ds.pucEthernetBuffer) - (h - 20) := by
    rw [husl1]
    exact usub_eq _ _ hwire (by unfold SIZE_T_MOD; omega)
  set L := FreeRTOS_ntohs (usLengthField ds.pucEthernetBuffer) - (h - 20)
    with hLdef
  have hLlt : L < 65536 := by omega
  set nl := FreeRTOS_htons L with hnl
  set buf2 := storeU16 buf1 16 nl with hbuf2
  have hlen2 : buf2.length = ds.pucEthernetBuffer.length := by
    rw [hbuf2, length_storeU16, hlen1]
  have hb2_14 : getByte buf2 14 = getByte ds.pucEthernetBuffer 14 := by
    rw [hbuf2, getByte_storeU16_ne _ _ _ _ (by omega) (by omega), hb14]
  set buf3 := setByte buf2 14
    ((getByte buf2 14 &&& 0xF0) ||| ((20 >>> 2) &&& 0x0F)) with hbuf3
  have hB := prvCheck_pass_buffer ds
  rw [hmv, hopt, hmem14, ← hbuf1, husub3, ← hnl, ← hbuf2, ← hbuf3] at hB
  refine ⟨prvCheck_pass_fst ds, ?_, ?_, ?_, ?_, ?_, ?_, prvCheck_pass_ep ds⟩
  · rw [prvCheck_pass_len ds, hopt, usub_eq _ _ (by omega) hM]
  · intro i hi
    rw [hB, hbuf3, getByte_setByte_ne _ _ _ _ (by omega), hbuf2,
      getByte_storeU16_ne _ _ _ _ (by omega) (by omega), hbuf1]
    exact getByte_memmove_mid _ _ _ _ _ (by omega) (by omega) h34
  · rw [hB]
    have h1 : usLengthField buf3 = loadU16 buf2 16 := by
      unfold usLengthField loadU16
      rw [hbuf3, getByte_setByte_ne _ _ _ _ (by omega),
        getByte_setByte_ne _ _ _ _ (by omega)]
    have hnl65 : nl < 65536 := by
      rw [hnl]
      unfold FreeRTOS_htons
      exact ntohs_lt L
    rw [h1, hbuf2, loadU16_storeU16 _ _ _ (by omega),
      Nat.mod_eq_of_lt hnl65, hnl]
    show FreeRTOS_ntohs (FreeRTOS_ntohs L) = L
    exact ntohs_involution L hLlt
  · rw [hB, hbuf3, getByte_setByte_self _ _ _ (by rw [hlen2]; omega),
      hb2_14, vhl_rewrite_eq _ hb]
    omega
  · rw [hB, hbuf3, getByte_setByte_self _ _ _ (by rw [hlen2]; omega),
      hb2_14, vhl_rewrite_eq _ hb]
    omega
  · rw [hB, hbuf3, length_setByte, hlen2]

/-- An IPv4/UDP frame with a 28-byte header (8 option bytes at offsets
34-41), UDP header at 42-49, 4 payload bytes, 54 bytes in total, IP
total length 40. -/
def frameOpt : List Nat :=
  [0x11, 0x22, 0x33, 0x44, 0x55, 0x66,
   0xAA, 0xBB, 0xCC, 0xDD, 0xEE, 0x01,
   0x08, 0x00,
   0x47, 0x00, 0x00, 0x28, 0x00, 0x00, 0x00, 0x00, 0x40, 0x11, 0x00, 0x00,
   0xC0, 0xA8, 0x01, 0x0A,
   0xC0, 0xA8, 0x01, 0x05,
   0x01, 0x02, 0x03, 0x04, 0x05, 0x06, 0x07, 0x08,
   0x00, 0x35, 0x00, 0x35, 0x00, 0x0C, 0xAB, 0xCD,
   0xDE, 0xAD, 0xBE, 0xEF]

def dsOpt : NetworkBufferDescriptor :=
  { pucEthernetBuffer := frameOpt, xDataLength := 54, pxEndPoint := none }

/-- Witness for C1 at the concrete 28-byte-header frame (`h = 28`). -/
theorem c1_option_stripping_witness :
    28 = (getByte dsOpt.pucEthernetBuffer 14 &&& 0x0F) * 4 ∧
    20 < 28 ∧ 14 + 28 ≤ dsOpt.xDataLength ∧
    ((prvCheckIP4HeaderOptions true dsOpt).1 = eProcessBuffer ∧
      (prvCheckIP4HeaderOptions true dsOpt).2.xDataLength =
        dsOpt.xDataLength - (28 - 20) ∧
      (∀ i, 14 + 28 + i < dsOpt.xDataLength →
        getByte (prvCheckIP4HeaderOptions true dsOpt).2.pucEthernetBuffer
            (34 + i) =
          getByte dsOpt.pucEthernetBuffer (14 + 28 + i)) ∧
      FreeRTOS_ntohs (usLengthField
          (prvCheckIP4HeaderOptions true dsOpt).2.pucEthernetBuffer) =
        FreeRTOS_ntohs (usLengthField dsOpt.pucEthernetBuffer) - (28 - 20) ∧
      getByte (prvCheckIP4HeaderOptions true dsOpt).2.pucEthernetBuffer 14 / 16 =
        getByte dsOpt.pucEthernetBuffer 14 / 16 ∧
      getByte (prvCheckIP4HeaderOptions true dsOpt).2.pucEthernetBuffer 14 % 16 = 5 ∧
      (prvCheckIP4HeaderOptions true dsOpt).2.pucEthernetBuffer.length =
        dsOpt.pucEthernetBuffer.length ∧
      (prvCheckIP4HeaderOptions true dsOpt).2.pxEndPoint = dsOpt.pxEndPoint) :=
  ⟨by decide, by decide, by decide,
    c1_option_stripping dsOpt 28 (by decide) (by decide) (by decide)
      (by decide) (by decide) (by decide)⟩

end FreeRTOSIPv4
